import Mathlib

set_option maxHeartbeats 1000000

/-!
Shallow embedding of the Whoofy repository: the three command-line tools
`clip_similarity.py`, `detect.py` and `ocr.py`.  All Python logic written in
the repository is translated directly.  The external pretrained models
(CLIP, YOLO, Tesseract), PIL image decoding and the filesystem are abstracted
as environment records; PyTorch's `torch.cosine_similarity` is modelled by its
documented formula `x1 . x2 / max(norm x1 * norm x2, eps)` with the default
`eps = 1e-8`, and machine floats are modelled as real numbers.
-/

namespace Whoofy

/-- Dot product of two real vectors (truncating at the shorter length; the
tensors appearing in the scripts always have equal length). -/
def dotProd (a b : List ℝ) : ℝ := (List.zipWith (fun x y => x * y) a b).sum

/-- Euclidean norm of a vector, `tensor.norm()`. -/
noncomputable def l2norm (v : List ℝ) : ℝ := Real.sqrt (dotProd v v)

/-- L2 normalisation `embedding / embedding.norm(dim=-1, keepdim=True)`
performed inside `embed_image` (clip_similarity.py line 81).  Lean's
convention `x / 0 = 0` covers the all-zero edge case. -/
noncomputable def l2normalize (v : List ℝ) : List ℝ := v.map (fun x => x / l2norm v)

/-- The default `eps` of `torch.cosine_similarity`, `1e-8`. -/
noncomputable def clipEps : ℝ := 1 / 100000000

/-- Model of `torch.cosine_similarity(a, b).item()` for 1-row tensors, after
the documented formula `x1 . x2 / max(norm x1 * norm x2, eps)`. -/
noncomputable def torchCosineSimilarity (a b : List ℝ) : ℝ :=
  dotProd a b / max (l2norm a * l2norm b) clipEps

/-- Confidence bucket strings produced by the similarity functions. -/
inductive Confidence
  | high
  | medium
  | low
  | none
deriving DecidableEq

/-- The success dictionary `{"similarity": ..., "match": ..., "confidence": ...}`.
The Python key `match` is a Lean keyword, hence the field name `matched`. -/
structure SimilarityResult where
  similarity : ℝ
  matched : Bool
  confidence : Confidence

/-- Construction of the result dictionary shared by `compute_similarity`
(lines 116-120) and `compare_with_embedding` (lines 182-186):
match iff `similarity >= 0.30`, confidence `high`/`medium`/`low`/`none`
at thresholds `0.45`/`0.35`/`0.30`. -/
noncomputable def mkSimilarityResult (s : ℝ) : SimilarityResult :=
  { similarity := s
  , matched := decide (s ≥ 0.30)
  , confidence :=
      if s ≥ 0.45 then Confidence.high
      else if s ≥ 0.35 then Confidence.medium
      else if s ≥ 0.30 then Confidence.low
      else Confidence.none }

/-- Model of the global cache logic of `get_model` (clip_similarity.py lines
38-54).  `M` abstracts the cached triple (model, preprocess, device);
`load_clip_model` is the outcome the loader would produce on this call, and
`cache` is the current value of the module-level cache variables.  Returns the
function's result together with the new cache state. -/
def get_model {M : Type} (load_clip_model : Except String M) (cache : Option M) :
    Except String M × Option M :=
  match cache with
  | some m => (Except.ok m, some m)
  | none =>
    match load_clip_model with
    | Except.error e => (Except.error e, none)
    | Except.ok m => (Except.ok m, some m)

/-- Environment of `clip_similarity.py`: `load` is the (process-deterministic)
outcome of `load_clip_model`, as returned by `get_model`; `decode` is
`Image.open(path).convert('RGB')` (`none` models an exception); `encode` is the
raw `model.encode_image` forward pass before normalisation. -/
structure ClipEnv (M I : Type) where
  load : Except String M
  decode : String → Option I
  encode : M → I → List ℝ

/-- Translation of `embed_image` (clip_similarity.py lines 57-85): obtain the
model, decode the image, encode it and L2-normalise the embedding; any
exception yields the error dictionary. -/
noncomputable def embed_image {M I : Type} (env : ClipEnv M I) (image_path : String) :
    Except String (List ℝ) :=
  match env.load with
  | Except.error e => Except.error e
  | Except.ok m =>
    match env.decode image_path with
    | none => Except.error "Failed to embed image"
    | some img => Except.ok (l2normalize (env.encode m img))

/-- Translation of `compute_similarity` (clip_similarity.py lines 88-122):
embed both images, take `torch.cosine_similarity`, clamp at `0` and bucket. -/
noncomputable def compute_similarity {M I : Type} (env : ClipEnv M I)
    (reference_image_path frame_image_path : String) : Except String SimilarityResult :=
  match embed_image env reference_image_path with
  | Except.error e => Except.error e
  | Except.ok ref_embedding =>
    match embed_image env frame_image_path with
    | Except.error e => Except.error e
    | Except.ok frame_embedding =>
      Except.ok (mkSimilarityResult (max 0 (torchCosineSimilarity ref_embedding frame_embedding)))

/-- The success dictionary of `embed_reference`:
`{"embedding": [...], "dimension": n}`. -/
structure EmbedOut where
  embedding : List ℝ
  dimension : Nat

/-- Translation of `embed_reference` (clip_similarity.py lines 125-149):
serialize the embedding as a list together with its length. -/
noncomputable def embed_reference {M I : Type} (env : ClipEnv M I)
    (reference_image_path : String) : Except String EmbedOut :=
  match embed_image env reference_image_path with
  | Except.error e => Except.error e
  | Except.ok embedding => Except.ok { embedding := embedding, dimension := embedding.length }

/-- Translation of `compare_with_embedding` (clip_similarity.py lines 152-188):
check the model, rebuild the reference vector from the supplied list (used
as-is, no re-normalisation), embed the frame, then the same cosine /
clamp / bucket computation as `compute_similarity`. -/
noncomputable def compare_with_embedding {M I : Type} (env : ClipEnv M I)
    (frame_image_path : String) (reference_embedding_list : List ℝ) :
    Except String SimilarityResult :=
  match env.load with
  | Except.error e => Except.error e
  | Except.ok _ =>
    match embed_image env frame_image_path with
    | Except.error e => Except.error e
    | Except.ok frame_embedding =>
      Except.ok (mkSimilarityResult
        (max 0 (torchCosineSimilarity reference_embedding_list frame_embedding)))

/-- Python `str.lower()` (ASCII model): lowercase every character. -/
def pyLower (s : String) : String := ⟨s.data.map Char.toLower⟩

/-- Environment of `detect.py`: `infer t` is the list of class indices of the
bounding boxes the YOLO call `model(image_path, conf=t, ...)` returns at
confidence floor `t` (an error models any load/inference exception), and
`names` is the `model.names` class-index-to-name table. -/
structure YoloEnv where
  infer : ℝ → Except String (List Nat)
  names : Nat → String

/-- Translation of `detect_objects` (detect.py lines 32-67): run inference,
map each box's class index to its lowercased name, and collect them into a
set.  Python builds a `set` and returns `list(set)` (arbitrary order); the
`Finset` is that set of strings. -/
def detect_objects (env : YoloEnv) (confidence_threshold : ℝ) :
    Except String (Finset String) :=
  match env.infer confidence_threshold with
  | Except.error e => Except.error e
  | Except.ok ids =>
    Except.ok (ids.map (fun class_id => pyLower (env.names class_id))).toFinset

/-- Whitespace characters of Python's `str.split()` / `str.strip()`
(ASCII part). -/
def isPyWs (c : Char) : Bool :=
  c == ' ' || c == '\t' || c == '\n' || c == '\r' || c == '\x0b' || c == '\x0c'

/-- Python `str.strip()`: drop leading and trailing whitespace. -/
def pyStrip (s : String) : String :=
  ⟨List.reverse (List.dropWhile isPyWs (List.reverse (List.dropWhile isPyWs s.data)))⟩

/-- Helper of `pySplit`: scan the characters, accumulating the current word
(reversed) and emitting it at each whitespace run. -/
def pySplitAux : List Char → List Char → List String
  | [], acc => if acc.isEmpty then [] else [⟨acc.reverse⟩]
  | c :: cs, acc =>
    if isPyWs c then
      if acc.isEmpty then pySplitAux cs [] else (⟨acc.reverse⟩ : String) :: pySplitAux cs []
    else pySplitAux cs (c :: acc)

/-- Python `str.split()` with no arguments: split on whitespace runs,
producing no empty tokens. -/
def pySplit (s : String) : List String := pySplitAux s.data []

/-- The word-deduplication loop of `read_text` (ocr.py lines 71-79): `seen` is
the set of lowercased words already kept, modelled as a list used only through
membership. -/
def dedupWordsAux : List String → List String → List String
  | [], _ => []
  | word :: words, seen =>
    if pyLower word ∈ seen then dedupWordsAux words seen
    else word :: dedupWordsAux words (pyLower word :: seen)

/-- Lines 69-79 of ocr.py: split the combined text on whitespace, drop words
whose lowercase form was already seen, and rejoin with single spaces. -/
def dedupWords (combined_text : String) : String :=
  String.intercalate " " (dedupWordsAux (pySplit combined_text) [])

/-- The three-pass collection loop of `read_text` (ocr.py lines 40-64).
Arguments are the raw outcomes of the three `pytesseract.image_to_string`
calls (PSM 6, PSM 11, default); `none` models the call raising an exception.
Pass 1 keeps its stripped text if nonempty.  Pass 2 keeps its text if nonempty
and different from `text1` - but when pass 1 raised, `text1` is an undefined
Python variable, so the comparison raises `NameError` inside the blanket
`except` and pass 2 is dropped unconditionally.  Pass 3 keeps its text if
nonempty and not already in the collected list. -/
def pass1Texts (psm6 : Option String) : List String :=
  match psm6 with
  | some raw1 => if pyStrip raw1 = "" then [] else [pyStrip raw1]
  | none => []

def pass2Texts (psm6 psm11 : Option String) : List String :=
  match psm6, psm11 with
  | some raw1, some raw2 =>
    if pyStrip raw2 ≠ "" ∧ pyStrip raw2 ≠ pyStrip raw1 then [pyStrip raw2] else []
  | _, _ => []

def pass3Texts (collected : List String) (psmDefault : Option String) : List String :=
  match psmDefault with
  | some raw3 =>
    if pyStrip raw3 ≠ "" ∧ pyStrip raw3 ∉ collected then [pyStrip raw3] else []
  | none => []

def ocrTexts (psm6 psm11 psmDefault : Option String) : List String :=
  pass1Texts psm6 ++ pass2Texts psm6 psm11 ++
    pass3Texts (pass1Texts psm6 ++ pass2Texts psm6 psm11) psmDefault

/-- Lines 66-81 of ocr.py: join the surviving pass outputs with spaces and
deduplicate the words; no surviving pass yields the empty string. -/
def read_text_core (psm6 psm11 psmDefault : Option String) : String :=
  let texts := ocrTexts psm6 psm11 psmDefault
  if texts = [] then "" else dedupWords (String.intercalate " " texts)

/-- The fixed tesseract-missing error message of ocr.py. -/
def tessError : String :=
  "tesseract is not installed or it's not in your PATH. See README file for more information."

/-- Helper of `strContains`: does `needle` start at some suffix? -/
def strContainsAux (needle : List Char) : List Char → Bool
  | [] => needle.isPrefixOf []
  | c :: cs => needle.isPrefixOf (c :: cs) || strContainsAux needle cs

/-- Substring test `needle in haystack` on Python strings. -/
def strContains (haystack needle : String) : Bool :=
  strContainsAux needle.data haystack.data

/-- Environment of `read_text`: whether `pytesseract.get_tesseract_version()`
succeeds, the outcome of `Image.open(image_path)` (error = exception message),
and the outcomes of the three OCR passes (`none` = exception). -/
structure OcrEnv where
  tesseractOk : Bool
  openImage : Except String Unit
  psm6 : Option String
  psm11 : Option String
  psmDefault : Option String

/-- Translation of `read_text` (ocr.py lines 18-87): tesseract check, image
open (an exception message mentioning `tesseract` or `not found` is replaced
by the fixed hint, lines 82-87), then the three passes and the merge. -/
def read_text (env : OcrEnv) : Except String String :=
  if env.tesseractOk = false then Except.error tessError
  else
    match env.openImage with
    | Except.error e =>
      Except.error
        (if strContains (pyLower e) "tesseract" || strContains (pyLower e) "not found"
         then tessError else e)
    | Except.ok _ => Except.ok (read_text_core env.psm6 env.psm11 env.psmDefault)

/-- Access `sys.argv[i]` (total, with an irrelevant default: the scripts only
read indices they have length-checked). -/
def argD (argv : List String) (i : Nat) : String := argv.getD i ""

/-- One JSON line on standard output.  `errLine m` is `{"error": m}`;
the other constructors are the success dictionaries of the three tools. -/
inductive JLine
  | errLine (msg : String)
  | objectsLine (objects : Finset String)
  | textLine (text : String)
  | embedLine (embedding : List ℝ) (dimension : Nat)
  | simLine (result : SimilarityResult)

/-- Observable outcome of one tool invocation: the JSON lines printed to
standard output, in order, and the process exit code (Python exits 0 falling
off the end, 1 on `sys.exit(1)` and on an uncaught exception, which prints
nothing to standard output). -/
structure ProcResult where
  out : List JLine
  exitCode : Nat

/-- Printing an `Except`-valued result dictionary followed by falling off the
end of the script: clip_similarity.py prints `json.dumps(result)` without
inspecting it and never exits nonzero afterwards. -/
noncomputable def printSimResult (r : Except String SimilarityResult) : ProcResult :=
  match r with
  | Except.error e => ⟨[JLine.errLine e], 0⟩
  | Except.ok res => ⟨[JLine.simLine res], 0⟩

/-- Printing the result of `embed_reference`, again with no error check and
exit code 0. -/
noncomputable def printEmbedResult (r : Except String EmbedOut) : ProcResult :=
  match r with
  | Except.error e => ⟨[JLine.errLine e], 0⟩
  | Except.ok o => ⟨[JLine.embedLine o.embedding o.dimension], 0⟩

/-- Outcome of opening and `json.load`-ing the embedding file in the
`compare` command:  the file may fail to parse (uncaught exception), parse to
an object without the key `embedding`, or supply the list of floats. -/
inductive EmbFile
  | unreadable
  | noKey
  | withKey (embedding : List ℝ)

/-- Inputs of one `clip_similarity.py` invocation: `argv` is the full
`sys.argv` (program name first), `pathExists` is `os.path.exists`, `readEmb`
is the parsed content of a path passed as embedding file. -/
structure ClipCli (M I : Type) where
  argv : List String
  pathExists : String → Bool
  readEmb : String → EmbFile
  env : ClipEnv M I

def clipUsage1 : String := "Usage: python clip_similarity.py <command> [args...]"

def clipUsage2 : String :=
  "Commands: embed <image_path> | similarity <ref_path> <frame_path> | compare <frame_path> <embedding_json>"

def clipEmbedUsage : String := "Usage: python clip_similarity.py embed <image_path>"

def clipSimUsage : String :=
  "Usage: python clip_similarity.py similarity <reference_image_path> <frame_image_path>"

def clipCompareUsage : String :=
  "Usage: python clip_similarity.py compare <frame_image_path> <embedding_json_file>"

/-- Translation of the `__main__` block of clip_similarity.py (lines 191-258).
Note that the no-argument path prints two usage lines, and that the three
command branches print whatever dictionary the library layer returned and fall
off the end with exit code 0 even when that dictionary is an error. -/
noncomputable def clip_main {M I : Type} (c : ClipCli M I) : ProcResult :=
  if c.argv.length < 2 then ⟨[JLine.errLine clipUsage1, JLine.errLine clipUsage2], 1⟩
  else if pyLower (argD c.argv 1) = "embed" then
    if c.argv.length < 3 then ⟨[JLine.errLine clipEmbedUsage], 1⟩
    else if c.pathExists (argD c.argv 2) = false then
      ⟨[JLine.errLine ("Image file not found: " ++ argD c.argv 2)], 1⟩
    else printEmbedResult (embed_reference c.env (argD c.argv 2))
  else if pyLower (argD c.argv 1) = "similarity" then
    if c.argv.length < 4 then ⟨[JLine.errLine clipSimUsage], 1⟩
    else if c.pathExists (argD c.argv 2) = false then
      ⟨[JLine.errLine ("Reference image not found: " ++ argD c.argv 2)], 1⟩
    else if c.pathExists (argD c.argv 3) = false then
      ⟨[JLine.errLine ("Frame image not found: " ++ argD c.argv 3)], 1⟩
    else printSimResult (compute_similarity c.env (argD c.argv 2) (argD c.argv 3))
  else if pyLower (argD c.argv 1) = "compare" then
    if c.argv.length < 4 then ⟨[JLine.errLine clipCompareUsage], 1⟩
    else if c.pathExists (argD c.argv 2) = false then
      ⟨[JLine.errLine ("Frame image not found: " ++ argD c.argv 2)], 1⟩
    else if c.pathExists (argD c.argv 3) = false then
      ⟨[JLine.errLine ("Embedding file not found: " ++ argD c.argv 3)], 1⟩
    else
      match c.readEmb (argD c.argv 3) with
      | EmbFile.unreadable => ⟨[], 1⟩
      | EmbFile.noKey => ⟨[JLine.errLine "Invalid embedding file format"], 1⟩
      | EmbFile.withKey emb =>
        printSimResult (compare_with_embedding c.env (argD c.argv 2) emb)
  else ⟨[JLine.errLine ("Unknown command: " ++ pyLower (argD c.argv 1))], 1⟩

/-- Inputs of one `detect.py` invocation.  `parseFloat` models Python's
`float()` on the optional threshold argument (`none` = `ValueError`, an
uncaught exception). -/
structure DetectCli where
  argv : List String
  pathExists : String → Bool
  parseFloat : String → Option ℝ
  env : YoloEnv

/-- Translation of the `__main__` block of detect.py (lines 70-89):
usage check, threshold parse (uncaught `ValueError` prints nothing and exits
nonzero), existence check, then the detection with an explicit error check. -/
noncomputable def detect_main (c : DetectCli) : ProcResult :=
  if c.argv.length < 2 then
    ⟨[JLine.errLine "Usage: python detect.py <image_path> [confidence_threshold]"], 1⟩
  else
    match (if 2 < c.argv.length then c.parseFloat (argD c.argv 2) else some 0.25) with
    | none => ⟨[], 1⟩
    | some confidence =>
      if c.pathExists (argD c.argv 1) = false then
        ⟨[JLine.errLine ("Image file not found: " ++ argD c.argv 1)], 1⟩
      else
        match detect_objects c.env confidence with
        | Except.error e => ⟨[JLine.errLine e], 1⟩
        | Except.ok objects => ⟨[JLine.objectsLine objects], 0⟩

/-- Inputs of one `ocr.py` invocation. -/
structure OcrCli where
  argv : List String
  pathExists : String → Bool
  env : OcrEnv

/-- Translation of the `__main__` block of ocr.py (lines 90-108): usage check,
existence check, then `read_text` with an explicit error check. -/
def ocr_main (c : OcrCli) : ProcResult :=
  if c.argv.length < 2 then ⟨[JLine.errLine "Usage: python ocr.py <image_path>"], 1⟩
  else if c.pathExists (argD c.argv 1) = false then
    ⟨[JLine.errLine ("Image file not found: " ++ argD c.argv 1)], 1⟩
  else
    match read_text c.env with
    | Except.error e => ⟨[JLine.errLine e], 1⟩
    | Except.ok t => ⟨[JLine.textLine t], 0⟩

/-- Concrete environment for witnesses: the model loads, every image decodes,
and the raw encoder output is the (already unit-length) vector `[1, 0]`. -/
noncomputable def clipEnvUnit : ClipEnv Unit Unit :=
  { load := Except.ok ()
  , decode := fun _ => some ()
  , encode := fun _ _ => [1, 0] }

/-- Concrete environment in which `load_clip_model` fails. -/
noncomputable def clipEnvLoadFail : ClipEnv Unit Unit :=
  { load := Except.error "Failed to load CLIP model: boom"
  , decode := fun _ => some ()
  , encode := fun _ _ => [1, 0] }

/-- An `embed` invocation of clip_similarity.py on an existing file whose
model load fails. -/
noncomputable def clipCliEmbedFail : ClipCli Unit Unit :=
  { argv := ["clip_similarity.py", "embed", "img.jpg"]
  , pathExists := fun _ => true
  , readEmb := fun _ => EmbFile.withKey []
  , env := clipEnvLoadFail }

/-- A clip_similarity.py invocation with no command argument at all. -/
noncomputable def clipCliNoArgs : ClipCli Unit Unit :=
  { argv := ["clip_similarity.py"]
  , pathExists := fun _ => true
  , readEmb := fun _ => EmbFile.withKey []
  , env := clipEnvUnit }

/-- A `compare` invocation whose embedding file parses but lacks the
`embedding` key. -/
noncomputable def clipCliNoKey : ClipCli Unit Unit :=
  { argv := ["clip_similarity.py", "compare", "frame.jpg", "emb.json"]
  , pathExists := fun _ => true
  , readEmb := fun _ => EmbFile.noKey
  , env := clipEnvUnit }

/-- Concrete YOLO environment for witnesses: two boxes of class 0 and one of
class 1 survive every threshold. -/
def yoloEnvW : YoloEnv :=
  { infer := fun _ => Except.ok [0, 0, 1]
  , names := fun class_id => if class_id = 0 then "Dog" else "Cat" }

/-- Concrete YOLO environment with no qualifying detections. -/
def yoloEnvEmpty : YoloEnv :=
  { infer := fun _ => Except.ok []
  , names := fun _ => "Dog" }

/-- A detect.py invocation on an existing image with no detections. -/
noncomputable def detectCliEmpty : DetectCli :=
  { argv := ["detect.py", "img.jpg"]
  , pathExists := fun _ => true
  , parseFloat := fun _ => none
  , env := yoloEnvEmpty }

/-- An ocr.py environment in which tesseract works, the image opens, the
uniform-block pass raises an exception, the sparse pass reads `hello`, and
the default pass raises as well. -/
def ocrEnvPass1Raises : OcrEnv :=
  { tesseractOk := true
  , openImage := Except.ok ()
  , psm6 := none
  , psm11 := some "hello"
  , psmDefault := none }

/-- An ocr.py environment realizing the spec's `Acme Soda 12oz` example. -/
def ocrEnvAcme : OcrEnv :=
  { tesseractOk := true
  , openImage := Except.ok ()
  , psm6 := some "Acme Soda 12oz"
  , psm11 := some "SODA can"
  , psmDefault := none }

/-- The Acme example environment with the default pass returning an empty
string, so that all three passes succeed. -/
def ocrEnvAcme3 : OcrEnv :=
  { tesseractOk := true
  , openImage := Except.ok ()
  , psm6 := some "Acme Soda 12oz"
  , psm11 := some "SODA can"
  , psmDefault := some "" }

/-- An ocr.py invocation used as a witness. -/
def ocrCliW : OcrCli :=
  { argv := ["ocr.py", "img.jpg"]
  , pathExists := fun _ => true
  , env := ocrEnvAcme }

/-- Modelled from the claim's words, for comparison with the code: collect the
trimmed pass outputs in order, discarding one exactly when it is empty or
verbatim-duplicates an already-collected pass. -/
def specCollectPasses (outs : List String) : List String :=
  outs.foldl (fun acc t => if t ≠ "" ∧ t ∉ acc then acc ++ [t] else acc) []

/-- Modelled from the claim's words: deduplicate tokens case-insensitively,
preserving first-occurrence order and original case. -/
def specDedupTokens (tokens : List String) : List String :=
  tokens.foldl (fun acc w => if pyLower w ∈ acc.map pyLower then acc else acc ++ [w]) []

/-- Modelled from the claim's words: the merged OCR output for the given
trimmed pass outputs - collect the survivors, space-join them, split the
result on whitespace, deduplicate the tokens, and rejoin. -/
def specMergeText (outs : List String) : String :=
  let collected := specCollectPasses outs
  if collected = [] then ""
  else String.intercalate " " (specDedupTokens (pySplit (String.intercalate " " collected)))

theorem dotProd_nil_left (b : List ℝ) : dotProd [] b = 0 := rfl

theorem dotProd_nil_right (a : List ℝ) : dotProd a [] = 0 := by cases a <;> rfl

theorem dotProd_cons (x y : ℝ) (a b : List ℝ) :
    dotProd (x :: a) (y :: b) = x * y + dotProd a b := by
  simp [dotProd]

theorem dotProd_self_nonneg (a : List ℝ) : 0 ≤ dotProd a a := by
  induction a with
  | nil => simp [dotProd]
  | cons x a ih => rw [dotProd_cons]; nlinarith [mul_self_nonneg x]

theorem dotProd_comm (a : List ℝ) : ∀ b : List ℝ, dotProd a b = dotProd b a := by
  induction a with
  | nil => intro b; rw [dotProd_nil_left, dotProd_nil_right]
  | cons x a ih =>
    intro b
    cases b with
    | nil => rw [dotProd_nil_left, dotProd_nil_right]
    | cons y b => rw [dotProd_cons, dotProd_cons, ih, mul_comm]

theorem two_mul_dotProd_le (a : List ℝ) :
    ∀ b : List ℝ, 2 * dotProd a b ≤ dotProd a a + dotProd b b := by
  induction a with
  | nil =>
    intro b
    rw [dotProd_nil_left, dotProd_nil_left]
    have := dotProd_self_nonneg b
    linarith
  | cons x a ih =>
    intro b
    cases b with
    | nil =>
      rw [dotProd_nil_right, dotProd_nil_right]
      have := dotProd_self_nonneg (x :: a)
      linarith
    | cons y b =>
      rw [dotProd_cons, dotProd_cons, dotProd_cons]
      have h1 := ih b
      nlinarith [sq_nonneg (x - y)]

theorem dotProd_eq_zero_left (a : List ℝ) (h : ∀ x ∈ a, x = 0) :
    ∀ b : List ℝ, dotProd a b = 0 := by
  induction a with
  | nil => intro b; rfl
  | cons x a ih =>
    intro b
    cases b with
    | nil => rw [dotProd_nil_right]
    | cons y b =>
      rw [dotProd_cons, h x (List.mem_cons_self x a), zero_mul, zero_add]
      exact ih (fun z hz => h z (List.mem_cons_of_mem x hz)) b

theorem dotProd_map_div (c : ℝ) (a : List ℝ) :
    ∀ b : List ℝ,
      dotProd (a.map fun x => x / c) (b.map fun x => x / c) = dotProd a b / (c * c) := by
  induction a with
  | nil => intro b; rw [List.map_nil, dotProd_nil_left, dotProd_nil_left, zero_div]
  | cons x a ih =>
    intro b
    cases b with
    | nil => rw [List.map_nil, dotProd_nil_right, dotProd_nil_right, zero_div]
    | cons y b =>
      rw [List.map_cons, List.map_cons, dotProd_cons, dotProd_cons, ih,
        div_mul_div_comm, add_div]

theorem l2normalize_dichotomy (v : List ℝ) :
    dotProd (l2normalize v) (l2normalize v) = 1 ∨ ∀ x ∈ l2normalize v, x = 0 := by
  by_cases h : dotProd v v = 0
  · right
    intro x hx
    rw [l2normalize] at hx
    obtain ⟨y, _, rfl⟩ := List.mem_map.1 hx
    rw [l2norm, h, Real.sqrt_zero, div_zero]
  · left
    rw [l2normalize, dotProd_map_div, l2norm, Real.mul_self_sqrt (dotProd_self_nonneg v),
      div_self h]

theorem l2norm_eq_one (v : List ℝ) (h : dotProd v v = 1) : l2norm v = 1 := by
  rw [l2norm, h, Real.sqrt_one]

theorem clipEps_le_one : clipEps ≤ (1 : ℝ) := by rw [clipEps]; norm_num

theorem torchCosineSimilarity_unit (u v : List ℝ)
    (hu : dotProd u u = 1) (hv : dotProd v v = 1) :
    torchCosineSimilarity u v = dotProd u v := by
  rw [torchCosineSimilarity, l2norm_eq_one u hu, l2norm_eq_one v hv, one_mul,
    max_eq_left clipEps_le_one, div_one]

theorem torchCosineSimilarity_le_one (u v : List ℝ)
    (hu : dotProd u u = 1 ∨ ∀ x ∈ u, x = 0)
    (hv : dotProd v v = 1 ∨ ∀ x ∈ v, x = 0) :
    torchCosineSimilarity u v ≤ 1 := by
  rcases hu with hu | hu
  · rcases hv with hv | hv
    · rw [torchCosineSimilarity_unit u v hu hv]
      have h2 := two_mul_dotProd_le u v
      rw [hu, hv] at h2
      linarith
    · rw [torchCosineSimilarity, dotProd_comm, dotProd_eq_zero_left v hv u, zero_div]
      norm_num
  · rw [torchCosineSimilarity, dotProd_eq_zero_left u hu v, zero_div]
    norm_num

theorem embed_image_ok {M I : Type} (env : ClipEnv M I) (p : String) (u : List ℝ)
    (h : embed_image env p = Except.ok u) :
    ∃ m, env.load = Except.ok m ∧
      ∃ img, env.decode p = some img ∧ u = l2normalize (env.encode m img) := by
  unfold embed_image at h
  cases hl : env.load with
  | error e => rw [hl] at h; exact absurd h (by simp)
  | ok m =>
    rw [hl] at h
    cases hd : env.decode p with
    | none => rw [hd] at h; exact absurd h (by simp)
    | some img =>
      rw [hd] at h
      injection h with h
      exact ⟨m, rfl, img, rfl, h.symm⟩

theorem embed_image_normalized {M I : Type} (env : ClipEnv M I) (p : String) (u : List ℝ)
    (h : embed_image env p = Except.ok u) :
    dotProd u u = 1 ∨ ∀ x ∈ u, x = 0 := by
  obtain ⟨m, _, img, _, rfl⟩ := embed_image_ok env p u h
  exact l2normalize_dichotomy _

theorem mkSimilarityResult_matched (s : ℝ) :
    (mkSimilarityResult s).matched = true ↔ s ≥ 0.30 := by
  simp [mkSimilarityResult]

theorem mkSimilarityResult_conf_high (s : ℝ) :
    (mkSimilarityResult s).confidence = Confidence.high ↔ s ≥ 0.45 := by
  rw [mkSimilarityResult]
  split_ifs with h1 h2 h3 <;> simp_all

theorem mkSimilarityResult_conf_medium (s : ℝ) :
    (mkSimilarityResult s).confidence = Confidence.medium ↔ (s ≥ 0.35 ∧ ¬ s ≥ 0.45) := by
  rw [mkSimilarityResult]
  split_ifs with h1 h2 h3 <;> simp_all

theorem mkSimilarityResult_conf_low (s : ℝ) :
    (mkSimilarityResult s).confidence = Confidence.low ↔ (s ≥ 0.30 ∧ ¬ s ≥ 0.35) := by
  rw [mkSimilarityResult]
  split_ifs with h1 h2 h3 <;> simp_all <;> intro <;> linarith

theorem mkSimilarityResult_conf_none (s : ℝ) :
    (mkSimilarityResult s).confidence = Confidence.none ↔ ¬ s ≥ 0.30 := by
  rw [mkSimilarityResult]
  split_ifs with h1 h2 h3 <;> simp_all <;> linarith

theorem mkSimilarityResult_matched_iff_conf (s : ℝ) :
    (mkSimilarityResult s).matched = true ↔
      (mkSimilarityResult s).confidence ≠ Confidence.none := by
  rw [mkSimilarityResult_matched, Ne, mkSimilarityResult_conf_none, not_not]

theorem compute_similarity_eq {M I : Type} (env : ClipEnv M I) (r f : String)
    (u v : List ℝ) (hu : embed_image env r = Except.ok u)
    (hv : embed_image env f = Except.ok v) :
    compute_similarity env r f =
      Except.ok (mkSimilarityResult (max 0 (torchCosineSimilarity u v))) := by
  simp [compute_similarity, hu, hv]

theorem compute_similarity_ok_shape {M I : Type} (env : ClipEnv M I) (r f : String)
    (res : SimilarityResult) (h : compute_similarity env r f = Except.ok res) :
    ∃ u v, embed_image env r = Except.ok u ∧ embed_image env f = Except.ok v ∧
      res = mkSimilarityResult (max 0 (torchCosineSimilarity u v)) := by
  unfold compute_similarity at h
  cases hu : embed_image env r with
  | error e => rw [hu] at h; exact absurd h (by simp)
  | ok u =>
    rw [hu] at h
    cases hv : embed_image env f with
    | error e => rw [hv] at h; exact absurd h (by simp)
    | ok v =>
      rw [hv] at h
      injection h with h
      exact ⟨u, v, rfl, rfl, h.symm⟩

theorem compare_with_embedding_eq {M I : Type} (env : ClipEnv M I) (f : String)
    (lst v : List ℝ) (hv : embed_image env f = Except.ok v) :
    compare_with_embedding env f lst =
      Except.ok (mkSimilarityResult (max 0 (torchCosineSimilarity lst v))) := by
  obtain ⟨m, hm, -⟩ := embed_image_ok env f v hv
  simp [compare_with_embedding, hm, hv]

theorem compare_with_embedding_ok_shape {M I : Type} (env : ClipEnv M I) (f : String)
    (lst : List ℝ) (res : SimilarityResult)
    (h : compare_with_embedding env f lst = Except.ok res) :
    ∃ v, embed_image env f = Except.ok v ∧
      res = mkSimilarityResult (max 0 (torchCosineSimilarity lst v)) := by
  unfold compare_with_embedding at h
  cases hl : env.load with
  | error e => rw [hl] at h; exact absurd h (by simp)
  | ok m =>
    rw [hl] at h
    cases hv : embed_image env f with
    | error e => rw [hv] at h; exact absurd h (by simp)
    | ok v =>
      rw [hv] at h
      injection h with h
      exact ⟨v, rfl, h.symm⟩

theorem dotProd_unit_unit : dotProd [(1 : ℝ), 0] [(1 : ℝ), 0] = 1 := by
  simp [dotProd]

theorem clipEnvUnit_embed (p : String) :
    embed_image clipEnvUnit p = Except.ok [(1 : ℝ), 0] := by
  have hn : l2normalize [(1 : ℝ), 0] = [(1 : ℝ), 0] := by
    rw [l2normalize, l2norm, dotProd_unit_unit, Real.sqrt_one]
    simp
  simp [embed_image, clipEnvUnit, hn]

theorem torchCosineSimilarity_unit_unit :
    torchCosineSimilarity [(1 : ℝ), 0] [(1 : ℝ), 0] = 1 := by
  rw [torchCosineSimilarity_unit _ _ dotProd_unit_unit dotProd_unit_unit, dotProd_unit_unit]

theorem clipEnvUnit_compute (a b : String) :
    compute_similarity clipEnvUnit a b = Except.ok (mkSimilarityResult 1) := by
  rw [compute_similarity_eq clipEnvUnit a b _ _ (clipEnvUnit_embed a) (clipEnvUnit_embed b),
    torchCosineSimilarity_unit_unit, max_eq_right (by norm_num : (0 : ℝ) ≤ 1)]

theorem clipEnvUnit_embed_reference (p : String) :
    embed_reference clipEnvUnit p = Except.ok ⟨[(1 : ℝ), 0], 2⟩ := by
  simp [embed_reference, clipEnvUnit_embed p]

/-- C1: for every pair of images whose embeddings are successfully computed,
`compute_similarity` returns the cosine similarity (as computed by
`torch.cosine_similarity`) of the two L2-normalized embeddings clamped below
at zero, hence a value in `[0, 1]`; its `match` field is true iff the
similarity is at least `0.30` and its confidence buckets are `high >= 0.45`,
`medium >= 0.35`, `low >= 0.30`, else `none`; and `compare_with_embedding`
applies the same clamping and threshold computation to its result. -/
theorem compute_similarity_spec {M I : Type} (env : ClipEnv M I) (r f : String)
    (u v : List ℝ) (hu : embed_image env r = Except.ok u)
    (hv : embed_image env f = Except.ok v) :
    compute_similarity env r f =
      Except.ok (mkSimilarityResult (max 0 (torchCosineSimilarity u v))) ∧
    0 ≤ max 0 (torchCosineSimilarity u v) ∧
    max 0 (torchCosineSimilarity u v) ≤ 1 ∧
    (dotProd u u = 1 → dotProd v v = 1 → torchCosineSimilarity u v = dotProd u v) ∧
    (∀ s : ℝ,
      ((mkSimilarityResult s).matched = true ↔ s ≥ 0.30) ∧
      ((mkSimilarityResult s).confidence = Confidence.high ↔ s ≥ 0.45) ∧
      ((mkSimilarityResult s).confidence = Confidence.medium ↔ (s ≥ 0.35 ∧ ¬ s ≥ 0.45)) ∧
      ((mkSimilarityResult s).confidence = Confidence.low ↔ (s ≥ 0.30 ∧ ¬ s ≥ 0.35)) ∧
      ((mkSimilarityResult s).confidence = Confidence.none ↔ ¬ s ≥ 0.30)) ∧
    (∀ lst : List ℝ, compare_with_embedding env f lst =
      Except.ok (mkSimilarityResult (max 0 (torchCosineSimilarity lst v)))) := by
  refine ⟨compute_similarity_eq env r f u v hu hv, le_max_left 0 _,
    max_le (by norm_num) (torchCosineSimilarity_le_one u v
      (embed_image_normalized env r u hu) (embed_image_normalized env f v hv)),
    torchCosineSimilarity_unit u v,
    fun s => ⟨mkSimilarityResult_matched s, mkSimilarityResult_conf_high s,
      mkSimilarityResult_conf_medium s, mkSimilarityResult_conf_low s,
      mkSimilarityResult_conf_none s⟩,
    fun lst => compare_with_embedding_eq env f lst v hv⟩

/-- Witness for C1 at a concrete environment where both images embed to the
unit vector `[1, 0]`. -/
theorem compute_similarity_spec_witness :
    embed_image clipEnvUnit "ref.jpg" = Except.ok [(1 : ℝ), 0] ∧
    embed_image clipEnvUnit "frame.jpg" = Except.ok [(1 : ℝ), 0] ∧
    (compute_similarity clipEnvUnit "ref.jpg" "frame.jpg" =
      Except.ok (mkSimilarityResult
        (max 0 (torchCosineSimilarity [(1 : ℝ), 0] [(1 : ℝ), 0]))) ∧
    0 ≤ max 0 (torchCosineSimilarity [(1 : ℝ), 0] [(1 : ℝ), 0]) ∧
    max 0 (torchCosineSimilarity [(1 : ℝ), 0] [(1 : ℝ), 0]) ≤ 1 ∧
    (dotProd [(1 : ℝ), 0] [(1 : ℝ), 0] = 1 → dotProd [(1 : ℝ), 0] [(1 : ℝ), 0] = 1 →
      torchCosineSimilarity [(1 : ℝ), 0] [(1 : ℝ), 0] =
        dotProd [(1 : ℝ), 0] [(1 : ℝ), 0]) ∧
    (∀ s : ℝ,
      ((mkSimilarityResult s).matched = true ↔ s ≥ 0.30) ∧
      ((mkSimilarityResult s).confidence = Confidence.high ↔ s ≥ 0.45) ∧
      ((mkSimilarityResult s).confidence = Confidence.medium ↔ (s ≥ 0.35 ∧ ¬ s ≥ 0.45)) ∧
      ((mkSimilarityResult s).confidence = Confidence.low ↔ (s ≥ 0.30 ∧ ¬ s ≥ 0.35)) ∧
      ((mkSimilarityResult s).confidence = Confidence.none ↔ ¬ s ≥ 0.30)) ∧
    (∀ lst : List ℝ, compare_with_embedding clipEnvUnit "frame.jpg" lst =
      Except.ok (mkSimilarityResult
        (max 0 (torchCosineSimilarity lst [(1 : ℝ), 0]))))) :=
  ⟨clipEnvUnit_embed "ref.jpg", clipEnvUnit_embed "frame.jpg",
    compute_similarity_spec clipEnvUnit "ref.jpg" "frame.jpg" [(1 : ℝ), 0] [(1 : ℝ), 0]
      (clipEnvUnit_embed "ref.jpg") (clipEnvUnit_embed "frame.jpg")⟩

/-- C2: running `embed_reference` on the reference and passing its serialized
embedding list to `compare_with_embedding` together with the frame yields the
very same result dictionary (similarity, match and confidence) as a direct
`compute_similarity` call; in this real-number model of floats the two are
exactly equal. -/
theorem embed_then_compare_matches_similarity {M I : Type} (env : ClipEnv M I)
    (r f : String) (o : EmbedOut) (v : List ℝ)
    (hr : embed_reference env r = Except.ok o)
    (hf : embed_image env f = Except.ok v) :
    compare_with_embedding env f o.embedding = compute_similarity env r f := by
  have hex : ∃ u, embed_image env r = Except.ok u ∧ o.embedding = u := by
    unfold embed_reference at hr
    cases hu : embed_image env r with
    | error e => rw [hu] at hr; exact absurd hr (by simp)
    | ok u =>
      rw [hu] at hr
      injection hr with hr
      exact ⟨u, rfl, by rw [← hr]⟩
  obtain ⟨u, hu, ho⟩ := hex
  rw [ho, compare_with_embedding_eq env f u v hf, compute_similarity_eq env r f u v hu hf]

/-- Witness for C2 at a concrete environment. -/
theorem embed_then_compare_matches_similarity_witness :
    embed_reference clipEnvUnit "ref.jpg" = Except.ok ⟨[(1 : ℝ), 0], 2⟩ ∧
    embed_image clipEnvUnit "frame.jpg" = Except.ok [(1 : ℝ), 0] ∧
    compare_with_embedding clipEnvUnit "frame.jpg"
        (EmbedOut.embedding ⟨[(1 : ℝ), 0], 2⟩) =
      compute_similarity clipEnvUnit "ref.jpg" "frame.jpg" :=
  ⟨clipEnvUnit_embed_reference "ref.jpg", clipEnvUnit_embed "frame.jpg",
    embed_then_compare_matches_similarity clipEnvUnit "ref.jpg" "frame.jpg"
      ⟨[(1 : ℝ), 0], 2⟩ [(1 : ℝ), 0]
      (clipEnvUnit_embed_reference "ref.jpg") (clipEnvUnit_embed "frame.jpg")⟩

/-- C9: `compute_similarity` is exactly symmetric in its two images whenever
both embed successfully (cosine similarity is symmetric), so match and
confidence agree as well. -/
theorem compute_similarity_symm {M I : Type} (env : ClipEnv M I) (a b : String)
    (u v : List ℝ) (hu : embed_image env a = Except.ok u)
    (hv : embed_image env b = Except.ok v) :
    compute_similarity env a b = compute_similarity env b a := by
  rw [compute_similarity_eq env a b u v hu hv, compute_similarity_eq env b a v u hv hu]
  have hsym : torchCosineSimilarity u v = torchCosineSimilarity v u := by
    rw [torchCosineSimilarity, torchCosineSimilarity, dotProd_comm, mul_comm (l2norm u)]
  rw [hsym]

/-- Witness for C9 at a concrete environment. -/
theorem compute_similarity_symm_witness :
    embed_image clipEnvUnit "a.jpg" = Except.ok [(1 : ℝ), 0] ∧
    embed_image clipEnvUnit "b.jpg" = Except.ok [(1 : ℝ), 0] ∧
    compute_similarity clipEnvUnit "a.jpg" "b.jpg" =
      compute_similarity clipEnvUnit "b.jpg" "a.jpg" :=
  ⟨clipEnvUnit_embed "a.jpg", clipEnvUnit_embed "b.jpg",
    compute_similarity_symm clipEnvUnit "a.jpg" "b.jpg" [(1 : ℝ), 0] [(1 : ℝ), 0]
      (clipEnvUnit_embed "a.jpg") (clipEnvUnit_embed "b.jpg")⟩

/-- C10: in every successful result of `compute_similarity` or
`compare_with_embedding`, the match field is true iff the confidence field is
not `none`, both being derived from the same `similarity >= 0.30` test. -/
theorem match_iff_confidence_not_none {M I : Type} (env : ClipEnv M I)
    (r f : String) (lst : List ℝ) (res res' : SimilarityResult) :
    (compute_similarity env r f = Except.ok res →
      (res.matched = true ↔ res.confidence ≠ Confidence.none)) ∧
    (compare_with_embedding env f lst = Except.ok res' →
      (res'.matched = true ↔ res'.confidence ≠ Confidence.none)) := by
  constructor
  · intro h
    obtain ⟨u, v, -, -, rfl⟩ := compute_similarity_ok_shape env r f res h
    exact mkSimilarityResult_matched_iff_conf _
  · intro h
    obtain ⟨v, -, rfl⟩ := compare_with_embedding_ok_shape env f lst res' h
    exact mkSimilarityResult_matched_iff_conf _

/-- Witness for C10 at a concrete environment. -/
theorem match_iff_confidence_not_none_witness :
    compute_similarity clipEnvUnit "a.jpg" "b.jpg" = Except.ok (mkSimilarityResult 1) ∧
    ((mkSimilarityResult (1 : ℝ)).matched = true ↔
      (mkSimilarityResult (1 : ℝ)).confidence ≠ Confidence.none) :=
  ⟨clipEnvUnit_compute "a.jpg" "b.jpg",
    (match_iff_confidence_not_none clipEnvUnit "a.jpg" "b.jpg" []
      (mkSimilarityResult 1) (mkSimilarityResult 1)).1 (clipEnvUnit_compute "a.jpg" "b.jpg")⟩

/-- C6: `get_model` memoizes asymmetrically.  With a populated cache the call
returns the cached value whatever the loader would now produce (so no reload
happens); a first successful load populates the cache; a failed load returns
the error and leaves the cache empty, so the next call consults the loader
again. -/
theorem get_model_memoization {M : Type} (m : M) (load_now : Except String M)
    (e : String) :
    get_model load_now (some m) = (Except.ok m, some m) ∧
    get_model (Except.ok m) none = (Except.ok m, some m) ∧
    get_model (Except.error e) (none : Option M) = (Except.error e, none) :=
  ⟨rfl, rfl, rfl⟩

/-- Witness for C6 at concrete values. -/
theorem get_model_memoization_witness :
    get_model (Except.error "Failed to load CLIP model: boom") (some 7) =
      (Except.ok 7, some 7) ∧
    get_model (Except.ok 7) (none : Option Nat) = (Except.ok 7, some 7) ∧
    get_model (Except.error "Failed to load CLIP model: boom") (none : Option Nat) =
      (Except.error "Failed to load CLIP model: boom", none) :=
  get_model_memoization 7 (Except.error "Failed to load CLIP model: boom")
    "Failed to load CLIP model: boom"

theorem dotProd_tiny_self :
    dotProd [(1 : ℝ) / 10 ^ 10, 0] [(1 : ℝ) / 10 ^ 10, 0] =
      ((1 : ℝ) / 10 ^ 10) * ((1 : ℝ) / 10 ^ 10) := by
  simp [dotProd]

theorem l2norm_tiny : l2norm [(1 : ℝ) / 10 ^ 10, 0] = (1 : ℝ) / 10 ^ 10 := by
  rw [l2norm, dotProd_tiny_self, Real.sqrt_mul_self (by norm_num)]

theorem compare_tiny_value :
    compare_with_embedding clipEnvUnit "frame.jpg" [(1 : ℝ) / 10 ^ 10, 0] =
      Except.ok (mkSimilarityResult (1 / 100)) := by
  rw [compare_with_embedding_eq clipEnvUnit "frame.jpg" _ _ (clipEnvUnit_embed "frame.jpg")]
  have hd : dotProd [(1 : ℝ) / 10 ^ 10, 0] [(1 : ℝ), 0] = (1 : ℝ) / 10 ^ 10 := by
    simp [dotProd]
  have hn1 : l2norm [(1 : ℝ), 0] = 1 := l2norm_eq_one _ dotProd_unit_unit
  have ht : torchCosineSimilarity [(1 : ℝ) / 10 ^ 10, 0] [(1 : ℝ), 0] = 1 / 100 := by
    rw [torchCosineSimilarity, hd, hn1, l2norm_tiny, mul_one,
      max_eq_right (by rw [clipEps]; norm_num), clipEps]
    norm_num
  rw [ht, max_eq_right (by norm_num : (0 : ℝ) ≤ 1 / 100)]

theorem compare_unit_value :
    compare_with_embedding clipEnvUnit "frame.jpg" [(1 : ℝ), 0] =
      Except.ok (mkSimilarityResult 1) := by
  rw [compare_with_embedding_eq clipEnvUnit "frame.jpg" _ _ (clipEnvUnit_embed "frame.jpg"),
    torchCosineSimilarity_unit_unit, max_eq_right (by norm_num : (0 : ℝ) ≤ 1)]

theorem mkSimilarityResult_ne_of_similarity {s t : ℝ} (h : s ≠ t) :
    (Except.ok (mkSimilarityResult s) : Except String SimilarityResult) ≠
      Except.ok (mkSimilarityResult t) := by
  intro hc
  injection hc with hc
  have h2 : s = t := congrArg SimilarityResult.similarity hc
  exact h h2

/-- C3: `compare_with_embedding` uses the supplied embedding list as-is, with
no re-normalisation of its own; because the underlying
`torch.cosine_similarity` clamps the norm product at `eps = 1e-8`, a
non-unit-length reference list (here of norm `1e-10`) yields a similarity
(`0.01`) different from the one obtained with the L2-normalised version of
the same list (`1`), and equivalently the result is not invariant under
positive scaling of the embedding-list argument. -/
theorem compare_with_embedding_scaling_sensitive :
    l2norm [(1 : ℝ) / 10 ^ 10, 0] ≠ 1 ∧
    compare_with_embedding clipEnvUnit "frame.jpg" [(1 : ℝ) / 10 ^ 10, 0] ≠
      compare_with_embedding clipEnvUnit "frame.jpg"
        (l2normalize [(1 : ℝ) / 10 ^ 10, 0]) ∧
    compare_with_embedding clipEnvUnit "frame.jpg"
        (List.map (fun x => ((1 : ℝ) / 10 ^ 10) * x) [(1 : ℝ), 0]) ≠
      compare_with_embedding clipEnvUnit "frame.jpg" [(1 : ℝ), 0] := by
  have hscale : List.map (fun x => ((1 : ℝ) / 10 ^ 10) * x) [(1 : ℝ), 0] =
      [(1 : ℝ) / 10 ^ 10, 0] := by norm_num
  have hnormz : l2normalize [(1 : ℝ) / 10 ^ 10, 0] = [(1 : ℝ), 0] := by
    rw [l2normalize, l2norm_tiny]
    norm_num
  refine ⟨by rw [l2norm_tiny]; norm_num, ?_, ?_⟩
  · rw [hnormz, compare_tiny_value, compare_unit_value]
    exact mkSimilarityResult_ne_of_similarity (by norm_num : (1 : ℝ) / 100 ≠ 1)
  · rw [hscale, compare_tiny_value, compare_unit_value]
    exact mkSimilarityResult_ne_of_similarity (by norm_num : (1 : ℝ) / 100 ≠ 1)

theorem yoloEnvW_detect :
    detect_objects yoloEnvW 0.25 = Except.ok ([0, 0, 1].map
      (fun class_id => pyLower (yoloEnvW.names class_id))).toFinset := by
  rfl

/-- C7: a successful `detect_objects` call returns exactly the set of
lowercased class names of the boxes the inference call yields at the given
threshold - deduplicated and unordered (a `Finset`, matching Python's
`list(set(...))` whose order is arbitrary and which repeats no element) - and
a run of detect.py on an image with zero qualifying detections prints the
success line `{"objects": []}` with exit code 0, not an error. -/
theorem detect_objects_spec (env : YoloEnv) (t : ℝ) (ids : List Nat)
    (h : env.infer t = Except.ok ids) (c : DetectCli)
    (hargv : c.argv.length = 2) (hex : c.pathExists (argD c.argv 1) = true)
    (hempty : c.env.infer 0.25 = Except.ok []) :
    (detect_objects env t =
      Except.ok (ids.map (fun class_id => pyLower (env.names class_id))).toFinset) ∧
    (∀ x : String, x ∈ (ids.map (fun class_id => pyLower (env.names class_id))).toFinset ↔
      ∃ class_id ∈ ids, pyLower (env.names class_id) = x) ∧
    detect_main c = ⟨[JLine.objectsLine ∅], 0⟩ := by
  refine ⟨by simp [detect_objects, h], ?_, ?_⟩
  · intro x
    simp [List.mem_toFinset]
  · have h2 : ¬ c.argv.length < 2 := by omega
    have h3 : ¬ 2 < c.argv.length := by omega
    have hdet : detect_objects c.env 0.25 = Except.ok (∅ : Finset String) := by
      simp [detect_objects, hempty]
    simp [detect_main, h2, h3, hex, hdet]

/-- Witness for C7 at concrete environments. -/
theorem detect_objects_spec_witness :
    yoloEnvW.infer 0.25 = Except.ok [0, 0, 1] ∧
    detectCliEmpty.argv.length = 2 ∧
    detectCliEmpty.pathExists (argD detectCliEmpty.argv 1) = true ∧
    detectCliEmpty.env.infer 0.25 = Except.ok [] ∧
    ((detect_objects yoloEnvW 0.25 =
      Except.ok ([0, 0, 1].map
        (fun class_id => pyLower (yoloEnvW.names class_id))).toFinset) ∧
    (∀ x : String,
      x ∈ ([0, 0, 1].map (fun class_id => pyLower (yoloEnvW.names class_id))).toFinset ↔
      ∃ class_id ∈ [0, 0, 1], pyLower (yoloEnvW.names class_id) = x) ∧
    detect_main detectCliEmpty = ⟨[JLine.objectsLine ∅], 0⟩) :=
  ⟨rfl, rfl, rfl, rfl,
    detect_objects_spec yoloEnvW 0.25 [0, 0, 1] rfl detectCliEmpty rfl rfl rfl⟩

/-- C8: a `compare` invocation whose embedding file exists and parses as a
JSON object lacking the key `embedding` prints the fixed format-error line and
exits 1; the result is the same for every model environment (the `env` field
of the invocation is arbitrary and the conclusion holds for any replacement),
so no model loading, embedding or comparison is attempted. -/
theorem compare_missing_key_fails_fast {M I : Type} (c : ClipCli M I)
    (hlen : 4 ≤ c.argv.length)
    (hcmd : pyLower (argD c.argv 1) = "compare")
    (hframe : c.pathExists (argD c.argv 2) = true)
    (hefile : c.pathExists (argD c.argv 3) = true)
    (hkey : c.readEmb (argD c.argv 3) = EmbFile.noKey) :
    clip_main c = ⟨[JLine.errLine "Invalid embedding file format"], 1⟩ ∧
    ∀ env' : ClipEnv M I,
      clip_main { c with env := env' } =
        ⟨[JLine.errLine "Invalid embedding file format"], 1⟩ := by
  have h2 : ¬ c.argv.length < 2 := by omega
  have h4 : ¬ c.argv.length < 4 := by omega
  have hne : pyLower (argD c.argv 1) ≠ "embed" := by rw [hcmd]; decide
  have hns : pyLower (argD c.argv 1) ≠ "similarity" := by rw [hcmd]; decide
  constructor
  · simp [clip_main, h2, h4, hne, hns, hcmd, hframe, hefile, hkey]
  · intro env'
    simp [clip_main, h2, h4, hne, hns, hcmd, hframe, hefile, hkey]

/-- Witness for C8 at a concrete invocation. -/
theorem compare_missing_key_fails_fast_witness :
    4 ≤ clipCliNoKey.argv.length ∧
    pyLower (argD clipCliNoKey.argv 1) = "compare" ∧
    clipCliNoKey.pathExists (argD clipCliNoKey.argv 2) = true ∧
    clipCliNoKey.pathExists (argD clipCliNoKey.argv 3) = true ∧
    clipCliNoKey.readEmb (argD clipCliNoKey.argv 3) = EmbFile.noKey ∧
    (clip_main clipCliNoKey = ⟨[JLine.errLine "Invalid embedding file format"], 1⟩ ∧
    ∀ env' : ClipEnv Unit Unit,
      clip_main { clipCliNoKey with env := env' } =
        ⟨[JLine.errLine "Invalid embedding file format"], 1⟩) :=
  ⟨by decide, by decide, rfl, rfl, rfl,
    compare_missing_key_fails_fast clipCliNoKey (by decide) (by decide) rfl rfl rfl⟩

/-- C4 counterexample: clip_similarity.py violates the claimed error-path
contract in two ways.  An `embed` run whose model load fails prints the error
JSON line yet exits 0 (the script prints the library result without checking
it and falls off the end), and a run with no command argument prints two
error JSON lines rather than one. -/
theorem clip_error_line_with_exit_zero :
    (clip_main clipCliEmbedFail).out =
      [JLine.errLine "Failed to load CLIP model: boom"] ∧
    (clip_main clipCliEmbedFail).exitCode = 0 ∧
    (clip_main clipCliNoArgs).out = [JLine.errLine clipUsage1, JLine.errLine clipUsage2] ∧
    (clip_main clipCliNoArgs).exitCode = 1 :=
  ⟨rfl, rfl, rfl, rfl⟩

/-- C4 (amended): complete characterization of the observable outcomes of the
three tools.  ocr.py prints exactly one line - the error JSON with exit 1 on
every error path, the success JSON with exit 0 otherwise.  detect.py does the
same except that an unparsable confidence argument crashes with exit 1 and no
output.  clip_similarity.py exits 0 whenever the inference layer ran, even
when it returned an error line; its exit-1 paths print one error line, except
that the missing-command path prints the two usage error lines and an
unreadable embedding file crashes printing nothing. -/
theorem cli_output_characterization {M I : Type} :
    (∀ c : OcrCli,
      ((ocr_main c).exitCode = 0 ∧ ∃ t, (ocr_main c).out = [JLine.textLine t]) ∨
      ((ocr_main c).exitCode = 1 ∧ ∃ m, (ocr_main c).out = [JLine.errLine m])) ∧
    (∀ c : DetectCli,
      ((detect_main c).exitCode = 0 ∧ ∃ s, (detect_main c).out = [JLine.objectsLine s]) ∨
      ((detect_main c).exitCode = 1 ∧ ∃ m, (detect_main c).out = [JLine.errLine m]) ∨
      ((detect_main c).exitCode = 1 ∧ (detect_main c).out = [])) ∧
    (∀ c : ClipCli M I,
      ((clip_main c).exitCode = 0 ∧
        ((∃ m, (clip_main c).out = [JLine.errLine m]) ∨
         (∃ e d, (clip_main c).out = [JLine.embedLine e d]) ∨
         (∃ r, (clip_main c).out = [JLine.simLine r]))) ∨
      ((clip_main c).exitCode = 1 ∧
        ((∃ m, (clip_main c).out = [JLine.errLine m]) ∨
         (clip_main c).out = [JLine.errLine clipUsage1, JLine.errLine clipUsage2] ∨
         (clip_main c).out = []))) := by
  refine ⟨?_, ?_, ?_⟩
  · intro c
    by_cases h1 : c.argv.length < 2
    · have hc : ocr_main c = ⟨[JLine.errLine "Usage: python ocr.py <image_path>"], 1⟩ := by
        simp [ocr_main, h1]
      rw [hc]; exact Or.inr ⟨rfl, _, rfl⟩
    · by_cases h2 : c.pathExists (argD c.argv 1) = false
      · have hc : ocr_main c =
            ⟨[JLine.errLine ("Image file not found: " ++ argD c.argv 1)], 1⟩ := by
          simp [ocr_main, h1, h2]
        rw [hc]; exact Or.inr ⟨rfl, _, rfl⟩
      · cases hr : read_text c.env with
        | error e =>
          have hc : ocr_main c = ⟨[JLine.errLine e], 1⟩ := by
            simp [ocr_main, h1, h2, hr]
          rw [hc]; exact Or.inr ⟨rfl, _, rfl⟩
        | ok t =>
          have hc : ocr_main c = ⟨[JLine.textLine t], 0⟩ := by
            simp [ocr_main, h1, h2, hr]
          rw [hc]; exact Or.inl ⟨rfl, _, rfl⟩
  · intro c
    by_cases h1 : c.argv.length < 2
    · have hc : detect_main c =
          ⟨[JLine.errLine "Usage: python detect.py <image_path> [confidence_threshold]"], 1⟩ := by
        simp [detect_main, h1]
      rw [hc]; exact Or.inr (Or.inl ⟨rfl, _, rfl⟩)
    · cases hp : (if 2 < c.argv.length then c.parseFloat (argD c.argv 2) else some 0.25) with
      | none =>
        have hc : detect_main c = ⟨[], 1⟩ := by
          rw [detect_main, if_neg h1, hp]
        rw [hc]; exact Or.inr (Or.inr ⟨rfl, rfl⟩)
      | some conf =>
        by_cases h2 : c.pathExists (argD c.argv 1) = false
        · have hc : detect_main c =
              ⟨[JLine.errLine ("Image file not found: " ++ argD c.argv 1)], 1⟩ := by
            rw [detect_main, if_neg h1, hp]
            simp [h2]
          rw [hc]; exact Or.inr (Or.inl ⟨rfl, _, rfl⟩)
        · cases hd : detect_objects c.env conf with
          | error e =>
            have hc : detect_main c = ⟨[JLine.errLine e], 1⟩ := by
              rw [detect_main, if_neg h1, hp]
              simp [h2, hd]
            rw [hc]; exact Or.inr (Or.inl ⟨rfl, _, rfl⟩)
          | ok objs =>
            have hc : detect_main c = ⟨[JLine.objectsLine objs], 0⟩ := by
              rw [detect_main, if_neg h1, hp]
              simp [h2, hd]
            rw [hc]; exact Or.inl ⟨rfl, _, rfl⟩
  · intro c
    by_cases h1 : c.argv.length < 2
    · have hc : clip_main c = ⟨[JLine.errLine clipUsage1, JLine.errLine clipUsage2], 1⟩ := by
        simp [clip_main, h1]
      rw [hc]; exact Or.inr ⟨rfl, Or.inr (Or.inl rfl)⟩
    · by_cases hce : pyLower (argD c.argv 1) = "embed"
      · by_cases h3 : c.argv.length < 3
        · have hc : clip_main c = ⟨[JLine.errLine clipEmbedUsage], 1⟩ := by
            simp [clip_main, h1, hce, h3]
          rw [hc]; exact Or.inr ⟨rfl, Or.inl ⟨_, rfl⟩⟩
        · by_cases h4 : c.pathExists (argD c.argv 2) = false
          · have hc : clip_main c =
                ⟨[JLine.errLine ("Image file not found: " ++ argD c.argv 2)], 1⟩ := by
              simp [clip_main, h1, hce, h3, h4]
            rw [hc]; exact Or.inr ⟨rfl, Or.inl ⟨_, rfl⟩⟩
          · cases he : embed_reference c.env (argD c.argv 2) with
            | error e =>
              have hc : clip_main c = ⟨[JLine.errLine e], 0⟩ := by
                simp [clip_main, h1, hce, h3, h4, he, printEmbedResult]
              rw [hc]; exact Or.inl ⟨rfl, Or.inl ⟨_, rfl⟩⟩
            | ok o =>
              have hc : clip_main c = ⟨[JLine.embedLine o.embedding o.dimension], 0⟩ := by
                simp [clip_main, h1, hce, h3, h4, he, printEmbedResult]
              rw [hc]; exact Or.inl ⟨rfl, Or.inr (Or.inl ⟨_, _, rfl⟩)⟩
      · by_cases hcs : pyLower (argD c.argv 1) = "similarity"
        · by_cases h3 : c.argv.length < 4
          · have hc : clip_main c = ⟨[JLine.errLine clipSimUsage], 1⟩ := by
              simp [clip_main, h1, hce, hcs, h3]
            rw [hc]; exact Or.inr ⟨rfl, Or.inl ⟨_, rfl⟩⟩
          · by_cases h4 : c.pathExists (argD c.argv 2) = false
            · have hc : clip_main c =
                  ⟨[JLine.errLine ("Reference image not found: " ++ argD c.argv 2)], 1⟩ := by
                simp [clip_main, h1, hce, hcs, h3, h4]
              rw [hc]; exact Or.inr ⟨rfl, Or.inl ⟨_, rfl⟩⟩
            · by_cases h5 : c.pathExists (argD c.argv 3) = false
              · have hc : clip_main c =
                    ⟨[JLine.errLine ("Frame image not found: " ++ argD c.argv 3)], 1⟩ := by
                  simp [clip_main, h1, hce, hcs, h3, h4, h5]
                rw [hc]; exact Or.inr ⟨rfl, Or.inl ⟨_, rfl⟩⟩
              · cases hs : compute_similarity c.env (argD c.argv 2) (argD c.argv 3) with
                | error e =>
                  have hc : clip_main c = ⟨[JLine.errLine e], 0⟩ := by
                    simp [clip_main, h1, hce, hcs, h3, h4, h5, hs, printSimResult]
                  rw [hc]; exact Or.inl ⟨rfl, Or.inl ⟨_, rfl⟩⟩
                | ok r =>
                  have hc : clip_main c = ⟨[JLine.simLine r], 0⟩ := by
                    simp [clip_main, h1, hce, hcs, h3, h4, h5, hs, printSimResult]
                  rw [hc]; exact Or.inl ⟨rfl, Or.inr (Or.inr ⟨_, rfl⟩)⟩
        · by_cases hcc : pyLower (argD c.argv 1) = "compare"
          · by_cases h3 : c.argv.length < 4
            · have hc : clip_main c = ⟨[JLine.errLine clipCompareUsage], 1⟩ := by
                simp [clip_main, h1, hce, hcs, hcc, h3]
              rw [hc]; exact Or.inr ⟨rfl, Or.inl ⟨_, rfl⟩⟩
            · by_cases h4 : c.pathExists (argD c.argv 2) = false
              · have hc : clip_main c =
                    ⟨[JLine.errLine ("Frame image not found: " ++ argD c.argv 2)], 1⟩ := by
                  simp [clip_main, h1, hce, hcs, hcc, h3, h4]
                rw [hc]; exact Or.inr ⟨rfl, Or.inl ⟨_, rfl⟩⟩
              · by_cases h5 : c.pathExists (argD c.argv 3) = false
                · have hc : clip_main c =
                      ⟨[JLine.errLine ("Embedding file not found: " ++ argD c.argv 3)], 1⟩ := by
                    simp [clip_main, h1, hce, hcs, hcc, h3, h4, h5]
                  rw [hc]; exact Or.inr ⟨rfl, Or.inl ⟨_, rfl⟩⟩
                · cases hre : c.readEmb (argD c.argv 3) with
                  | unreadable =>
                    have hc : clip_main c = ⟨[], 1⟩ := by
                      simp [clip_main, h1, hce, hcs, hcc, h3, h4, h5, hre]
                    rw [hc]; exact Or.inr ⟨rfl, Or.inr (Or.inr rfl)⟩
                  | noKey =>
                    have hc : clip_main c =
                        ⟨[JLine.errLine "Invalid embedding file format"], 1⟩ := by
                      simp [clip_main, h1, hce, hcs, hcc, h3, h4, h5, hre]
                    rw [hc]; exact Or.inr ⟨rfl, Or.inl ⟨_, rfl⟩⟩
                  | withKey emb =>
                    cases hs : compare_with_embedding c.env (argD c.argv 2) emb with
                    | error e =>
                      have hc : clip_main c = ⟨[JLine.errLine e], 0⟩ := by
                        simp [clip_main, h1, hce, hcs, hcc, h3, h4, h5, hre, hs,
                          printSimResult]
                      rw [hc]; exact Or.inl ⟨rfl, Or.inl ⟨_, rfl⟩⟩
                    | ok r =>
                      have hc : clip_main c = ⟨[JLine.simLine r], 0⟩ := by
                        simp [clip_main, h1, hce, hcs, hcc, h3, h4, h5, hre, hs,
                          printSimResult]
                      rw [hc]; exact Or.inl ⟨rfl, Or.inr (Or.inr ⟨_, rfl⟩)⟩
          · have hc : clip_main c =
                ⟨[JLine.errLine ("Unknown command: " ++ pyLower (argD c.argv 1))], 1⟩ := by
              simp [clip_main, h1, hce, hcs, hcc]
            rw [hc]; exact Or.inr ⟨rfl, Or.inl ⟨_, rfl⟩⟩

/-- Witness for C4's amended theorem at a concrete ocr invocation. -/
theorem cli_output_characterization_witness :
    ((ocr_main ocrCliW).exitCode = 0 ∧ ∃ t, (ocr_main ocrCliW).out = [JLine.textLine t]) ∨
    ((ocr_main ocrCliW).exitCode = 1 ∧ ∃ m, (ocr_main ocrCliW).out = [JLine.errLine m]) :=
  (@cli_output_characterization Unit Unit).1 ocrCliW

theorem dedupWordsAux_foldl :
    ∀ (ws acc seen : List String),
      (∀ x, x ∈ seen ↔ x ∈ acc.map pyLower) →
      acc ++ dedupWordsAux ws seen =
        ws.foldl (fun a w => if pyLower w ∈ a.map pyLower then a else a ++ [w]) acc := by
  intro ws
  induction ws with
  | nil => intro acc seen _; simp [dedupWordsAux]
  | cons w ws ih =>
    intro acc seen h
    rw [dedupWordsAux, List.foldl_cons]
    by_cases hw : pyLower w ∈ seen
    · rw [if_pos hw, if_pos ((h (pyLower w)).1 hw)]
      exact ih acc seen h
    · rw [if_neg hw, if_neg (fun hc => hw ((h (pyLower w)).2 hc))]
      have hsplit : acc ++ w :: dedupWordsAux ws (pyLower w :: seen) =
          (acc ++ [w]) ++ dedupWordsAux ws (pyLower w :: seen) := by
        simp
      rw [hsplit]
      refine ih (acc ++ [w]) (pyLower w :: seen) ?_
      intro x
      simp [h x, or_comm]

theorem dedupWords_spec (s : String) :
    dedupWords s = String.intercalate " " (specDedupTokens (pySplit s)) := by
  rw [dedupWords, specDedupTokens,
    ← dedupWordsAux_foldl (pySplit s) [] [] (fun x => by simp)]
  simp

theorem ocrTexts_spec (r1 r2 r3 : String) :
    ocrTexts (some r1) (some r2) (some r3) =
      specCollectPasses [pyStrip r1, pyStrip r2, pyStrip r3] := by
  by_cases h1 : pyStrip r1 = "" <;> by_cases h2 : pyStrip r2 = "" <;>
    by_cases h21 : pyStrip r2 = pyStrip r1 <;> by_cases h3 : pyStrip r3 = "" <;>
    by_cases h31 : pyStrip r3 = pyStrip r1 <;> by_cases h32 : pyStrip r3 = pyStrip r2 <;>
    simp_all [ocrTexts, pass1Texts, pass2Texts, pass3Texts, specCollectPasses]

/-- C5 counterexample: when the uniform-block pass raises an exception and the
sparse pass reads a nonempty text that duplicates nothing (no pass has been
collected), the sparse pass's output is still discarded - the comparison
`text2 != text1` raises `NameError` because `text1` was never assigned, and
the blanket `except` swallows it.  `read_text` returns `""` where the claim's
discard rule predicts `"hello"`. -/
theorem sparse_pass_dropped_after_block_exception :
    pyStrip "hello" = "hello" ∧ ("hello" : String) ≠ "" ∧
    ocrTexts none (some "hello") none = [] ∧
    specMergeText [pyStrip "hello"] = "hello" ∧
    read_text ocrEnvPass1Raises = Except.ok "" :=
  ⟨rfl, by decide, rfl, by decide, rfl⟩

/-- C5 (amended): when no OCR pass raises (in particular the block pass
assigns `text1`, so the sparse pass's duplicate test is well defined),
`read_text` behaves exactly as claimed: each trimmed pass output is discarded
iff it is empty or verbatim-duplicates an already-collected pass, the
survivors are space-joined in the order block, sparse, default, and the
combined text is whitespace-split, deduplicated case-insensitively preserving
first-occurrence order and original case, and rejoined with single spaces
(`specMergeText` is that claimed pipeline); and the Acme/SODA example merges
to `Acme Soda 12oz can`.  When the block pass raises, the sparse pass is
dropped unconditionally (see the counterexample). -/
theorem read_text_merge_amended (env : OcrEnv) (r1 r2 r3 : String)
    (henv : env.tesseractOk = true) (hopen : env.openImage = Except.ok ())
    (hp1 : env.psm6 = some r1) (hp2 : env.psm11 = some r2)
    (hp3 : env.psmDefault = some r3) :
    read_text env = Except.ok (specMergeText [pyStrip r1, pyStrip r2, pyStrip r3]) ∧
    read_text ocrEnvAcme = Except.ok "Acme Soda 12oz can" := by
  constructor
  · have hcore : read_text env =
        Except.ok (read_text_core (some r1) (some r2) (some r3)) := by
      simp [read_text, henv, hopen, hp1, hp2, hp3]
    rw [hcore]
    simp only [read_text_core, specMergeText, ocrTexts_spec]
    by_cases hc : specCollectPasses [pyStrip r1, pyStrip r2, pyStrip r3] = [] <;>
      simp [hc, dedupWords_spec]
  · rfl

/-- Witness for C5's amended theorem at the Acme environment with all three
passes succeeding. -/
theorem read_text_merge_amended_witness :
    ocrEnvAcme3.tesseractOk = true ∧
    ocrEnvAcme3.openImage = Except.ok () ∧
    ocrEnvAcme3.psm6 = some "Acme Soda 12oz" ∧
    ocrEnvAcme3.psm11 = some "SODA can" ∧
    ocrEnvAcme3.psmDefault = some "" ∧
    (read_text ocrEnvAcme3 =
      Except.ok (specMergeText [pyStrip "Acme Soda 12oz", pyStrip "SODA can", pyStrip ""]) ∧
    read_text ocrEnvAcme = Except.ok "Acme Soda 12oz can") :=
  ⟨rfl, rfl, rfl, rfl, rfl,
    read_text_merge_amended ocrEnvAcme3 "Acme Soda 12oz" "SODA can" ""
      rfl rfl rfl rfl rfl⟩

end Whoofy
